import Mathlib

/-!
Verification of the timing/interpolation core of `manimlib/animation/animation.py`:
the `Animation` lifecycle (begin/finish/cleanup), the per-node sub-alpha
staggering algorithm (`get_sub_alpha`), the run-time getter, and the
`prepare_animation` builder-normalization function.

Real-valued quantities (Python floats) are embedded as rationals `ℚ`.
Helper functions that live outside the provided module (`clip`,
`squish_rate_func`, the `Mobject` adapter, scene removal, the animation
builder) are modelled from the spec, as noted on each definition.
-/

namespace Manim

/-- Modelled from the spec: `clip`/`clamp` from `manimlib.utils.simple_functions`
(not in the provided sources); `clamp(v, lo, hi)` restricts `v` to `[lo, hi]`. -/
def clip (x lo hi : ℚ) : ℚ := min (max x lo) hi

/-- Modelled from the spec: `squish_rate_func` from
`manimlib.utils.rate_functions` (not in the provided sources);
`squish(f, s, e)(t) = f(clamp((t - s) / (e - s), 0, 1))`. -/
def squish_rate_func (f : ℚ → ℚ) (s e : ℚ) : ℚ → ℚ :=
  fun t => f (clip ((t - s) / (e - s)) 0 1)

/-- Modelled from the spec: one node of the renderable-object tree, reduced to
the two per-node flags the Object-Tree Adapter exposes
(`setAnimatingFlag`, `setUpdatingSuspended`) plus an identity used for
scene membership. -/
structure Mobject where
  id : ℕ
  is_animating : Bool
  updating_suspended : Bool
deriving DecidableEq, Repr

/-- Modelled from the spec: the adapter's `setAnimatingFlag(node, bool)`. -/
def Mobject.set_animating_status (m : Mobject) (b : Bool) : Mobject :=
  { m with is_animating := b }

/-- Modelled from the spec: the adapter's `setUpdatingSuspended(node, true)`. -/
def Mobject.suspend_updating (m : Mobject) : Mobject :=
  { m with updating_suspended := true }

/-- Modelled from the spec: the adapter's `setUpdatingSuspended(node, false)`. -/
def Mobject.resume_updating (m : Mobject) : Mobject :=
  { m with updating_suspended := false }

/-- The state of one `Animation` instance: the configuration attributes set by
`digest_config` from `CONFIG`, the live target `mobject`, and the
`starting_mobject` snapshot created by `begin()`. -/
structure Animation where
  run_time : ℚ
  time_span : Option (ℚ × ℚ)
  rate_func : ℚ → ℚ
  name : Option String
  remover : Bool
  final_alpha_value : ℚ
  lag_ratio : ℚ
  suspend_mobject_updating : Bool
  mobject : Mobject
  starting_mobject : Option Mobject

/-- The local `raw_sub_alpha` computation of `Animation.get_sub_alpha`:
`full_length = (num_submobjects - 1) * lag_ratio + 1`,
`value = alpha * full_length`, `lower = index * lag_ratio`,
`raw_sub_alpha = clip(value - lower, 0, 1)`. -/
def raw_sub_alpha (lag_ratio alpha : ℚ) (index num_submobjects : ℕ) : ℚ :=
  let full_length : ℚ := ((num_submobjects : ℚ) - 1) * lag_ratio + 1
  let value : ℚ := alpha * full_length
  let lower : ℚ := (index : ℚ) * lag_ratio
  clip (value - lower) 0 1

/-- `Animation.get_sub_alpha`: the rate function applied to the clipped
staggered progress. -/
def Animation.get_sub_alpha (a : Animation) (alpha : ℚ) (index num_submobjects : ℕ) : ℚ :=
  a.rate_func (raw_sub_alpha a.lag_ratio alpha index num_submobjects)

/-- `Animation.begin`: widens `run_time` to the end of `time_span` and squishes
`rate_func` onto the normalized sub-interval when a time span is set, marks the
target as animating, snapshots it into `starting_mobject`, and suspends the
target's updating when `suspend_mobject_updating` is set.  (The base class's
initial `interpolate(0)` dispatches to the no-op `interpolate_submobject`
hook, so it does not change this state.) -/
def Animation.begin (a : Animation) : Animation :=
  let a :=
    match a.time_span with
    | some (s, e) =>
      let rt := max e a.run_time
      { a with
        run_time := rt
        rate_func := squish_rate_func a.rate_func (s / rt) (e / rt) }
    | none => a
  let a := { a with mobject := a.mobject.set_animating_status true }
  let a := { a with starting_mobject := some a.mobject }
  if a.suspend_mobject_updating then
    { a with mobject := a.mobject.suspend_updating }
  else a

/-- `Animation.finish`: runs the closing `interpolate(final_alpha_value)`
(a no-op on this state in the base class), clears the animating flag, and
resumes the target's updating when `suspend_mobject_updating` is set. -/
def Animation.finish (a : Animation) : Animation :=
  let a := { a with mobject := a.mobject.set_animating_status false }
  if a.suspend_mobject_updating then
    { a with mobject := a.mobject.resume_updating }
  else a

/-- `Animation.get_run_time`: `max(run_time, time_span[1])` when a time span is
set, otherwise `run_time`. -/
def Animation.get_run_time (a : Animation) : ℚ :=
  match a.time_span with
  | some ts => max a.run_time ts.2
  | none => a.run_time

/-- `Animation.is_remover`. -/
def Animation.is_remover (a : Animation) : Bool := a.remover

/-- Modelled from the spec: the scene, reduced to the sequence of nodes it
holds (the rest of the scene is out of scope). -/
structure Scene where
  mobjects : List Mobject
deriving DecidableEq, Repr

/-- Modelled from the spec: `Scene.remove` drops the given node from the
scene's sequence of nodes. -/
def Scene.remove (s : Scene) (m : Mobject) : Scene :=
  ⟨s.mobjects.filter (fun x => x ≠ m)⟩

/-- `Animation.clean_up_from_scene`: removes the target from the scene when
`is_remover()` holds. -/
def Animation.clean_up_from_scene (a : Animation) (s : Scene) : Scene :=
  if a.is_remover then s.remove a.mobject else s

/-- Modelled from the spec: `_AnimationBuilder` (not in the provided sources),
reduced to its `build()` operation producing an `Animation`. -/
structure AnimationBuilder where
  build : Animation

/-- The possible arguments of `prepare_animation`: a concrete `Animation`, a
deferred `_AnimationBuilder`, or some other value (the spec's example is an
integer). -/
inductive AnimLike where
  | anim (a : Animation)
  | builder (b : AnimationBuilder)
  | other (n : ℤ)

/-- `prepare_animation`: builders are materialized via `build()`, animations
pass through unchanged, anything else is a `TypeError` naming the value. -/
def prepare_animation : AnimLike → Except String Animation
  | .builder b => .ok b.build
  | .anim a => .ok a
  | .other n =>
    .error ("Object " ++ toString n ++ " cannot be converted to an animation")

end Manim

namespace Manim

lemma raw_sub_alpha_eq (lag_ratio alpha : ℚ) (index num_submobjects : ℕ) :
    raw_sub_alpha lag_ratio alpha index num_submobjects =
      clip (alpha * (((num_submobjects : ℚ) - 1) * lag_ratio + 1)
        - (index : ℚ) * lag_ratio) 0 1 := rfl

lemma clip_nonneg (x : ℚ) : 0 ≤ clip x 0 1 := by
  unfold clip
  exact le_min (le_max_right x 0) (by norm_num)

lemma clip_le_one (x : ℚ) : clip x 0 1 ≤ 1 := by
  unfold clip
  exact min_le_right _ _

lemma clip_mono {x y : ℚ} (h : x ≤ y) (lo hi : ℚ) : clip x lo hi ≤ clip y lo hi := by
  unfold clip
  exact min_le_min (max_le_max h le_rfl) le_rfl

lemma clip_of_mem {x : ℚ} (h0 : 0 ≤ x) (h1 : x ≤ 1) : clip x 0 1 = x := by
  unfold clip
  rw [max_eq_left h0, min_eq_left h1]

lemma clip_of_le_zero {x : ℚ} (h : x ≤ 0) : clip x 0 1 = 0 := by
  unfold clip
  rw [max_eq_right h, min_eq_left (by norm_num)]

lemma clip_of_one_le {x : ℚ} (h : 1 ≤ x) : clip x 0 1 = 1 := by
  unfold clip
  rw [max_eq_left (le_trans (by norm_num) h), min_eq_right h]

/-- An example `Animation` used as a concrete input in witnesses: the identity
rate function, `lag_ratio = 1/2`, three paired nodes come from the callers. -/
def exampleAnim : Animation :=
  { run_time := 1
    time_span := none
    rate_func := id
    name := none
    remover := false
    final_alpha_value := 1
    lag_ratio := 1 / 2
    suspend_mobject_updating := true
    mobject := ⟨0, false, false⟩
    starting_mobject := none }

/-- **C1**: `get_sub_alpha(alpha, i, total)` equals
`rateFunc(clip(alpha * ((total - 1) * lagRatio + 1) - i * lagRatio, 0, 1))`
for every state, alpha, index and total; and in the concrete scenario
(`total = 3`, `lagRatio = 1/2`, identity rate function) all three sub-alphas
are `0` at `alpha = 0`, all are `1` at `alpha = 1`, and at `alpha = 1/2` the
sub-alphas of indices `0, 1, 2` are `1, 1/2, 0`. -/
theorem get_sub_alpha_spec :
    (∀ (a : Animation) (alpha : ℚ) (i n : ℕ),
      a.get_sub_alpha alpha i n =
        a.rate_func
          (clip (alpha * (((n : ℚ) - 1) * a.lag_ratio + 1) - (i : ℚ) * a.lag_ratio) 0 1)) ∧
    (∀ i : ℕ, i < 3 → exampleAnim.get_sub_alpha 0 i 3 = 0) ∧
    (∀ i : ℕ, i < 3 → exampleAnim.get_sub_alpha 1 i 3 = 1) ∧
    exampleAnim.get_sub_alpha (1 / 2) 0 3 = 1 ∧
    exampleAnim.get_sub_alpha (1 / 2) 1 3 = 1 / 2 ∧
    exampleAnim.get_sub_alpha (1 / 2) 2 3 = 0 := by
  refine ⟨fun a alpha i n => rfl, ?_, ?_, ?_, ?_, ?_⟩ <;>
    first
      | (intro i hi
         interval_cases i <;>
           norm_num [Animation.get_sub_alpha, raw_sub_alpha_eq, exampleAnim, clip,
             min_def, max_def])
      | norm_num [Animation.get_sub_alpha, raw_sub_alpha_eq, exampleAnim, clip,
          min_def, max_def]

/-- Witness for C1: the concrete-scenario part of the statement at index `1`,
`alpha = 0`. -/
theorem get_sub_alpha_spec_witness :
    exampleAnim.get_sub_alpha 0 1 3 = 0 :=
  get_sub_alpha_spec.2.1 1 (by norm_num)

/-- **C5**: when `lag_ratio = 0`, `get_sub_alpha(alpha, i, total)` equals
`rate_func(alpha)` for every index, total, and `alpha ∈ [0, 1]`. -/
theorem get_sub_alpha_lag_zero (a : Animation) (h : a.lag_ratio = 0)
    (alpha : ℚ) (h0 : 0 ≤ alpha) (h1 : alpha ≤ 1) (i n : ℕ) :
    a.get_sub_alpha alpha i n = a.rate_func alpha := by
  rw [Animation.get_sub_alpha, raw_sub_alpha_eq, h]
  have he : alpha * (((n : ℚ) - 1) * 0 + 1) - (i : ℚ) * 0 = alpha := by ring
  rw [he, clip_of_mem h0 h1]

/-- Witness for C5 at `lag_ratio = 0`, `alpha = 1/2`, `i = 1`, `n = 4`. -/
theorem get_sub_alpha_lag_zero_witness :
    ({ exampleAnim with lag_ratio := 0 } : Animation).get_sub_alpha (1 / 2) 1 4 =
      ({ exampleAnim with lag_ratio := 0 } : Animation).rate_func (1 / 2) :=
  get_sub_alpha_lag_zero _ rfl (1 / 2) (by norm_num) (by norm_num) 1 4

lemma begin_mobject (a : Animation) :
    a.begin.mobject =
      if a.suspend_mobject_updating then
        (a.mobject.set_animating_status true).suspend_updating
      else a.mobject.set_animating_status true := by
  unfold Animation.begin
  cases h : a.time_span with
  | none => dsimp only; split_ifs <;> rfl
  | some ts => cases ts; dsimp only; split_ifs <;> rfl

lemma begin_time_span (a : Animation) : a.begin.time_span = a.time_span := by
  unfold Animation.begin
  cases h : a.time_span with
  | none => dsimp only; split_ifs <;> exact h
  | some ts => cases ts; dsimp only; split_ifs <;> rfl

lemma begin_suspend (a : Animation) :
    a.begin.suspend_mobject_updating = a.suspend_mobject_updating := by
  unfold Animation.begin
  cases h : a.time_span with
  | none => dsimp only; split_ifs <;> rfl
  | some ts => cases ts; dsimp only; split_ifs <;> rfl

lemma begin_run_time (a : Animation) (s e : ℚ) (h : a.time_span = some (s, e)) :
    a.begin.run_time = max e a.run_time := by
  unfold Animation.begin
  rw [h]
  dsimp only
  split_ifs <;> rfl

lemma begin_rate_func (a : Animation) (s e : ℚ) (h : a.time_span = some (s, e)) :
    a.begin.rate_func =
      squish_rate_func a.rate_func (s / max e a.run_time) (e / max e a.run_time) := by
  unfold Animation.begin
  rw [h]
  dsimp only
  split_ifs <;> rfl

lemma finish_mobject (a : Animation) :
    a.finish.mobject =
      if a.suspend_mobject_updating then
        (a.mobject.set_animating_status false).resume_updating
      else a.mobject.set_animating_status false := by
  unfold Animation.finish
  dsimp only
  split_ifs <;> rfl

/-- An example `Animation` with a time span `(1/2, 2)` exceeding its
`run_time = 1`, used as a concrete input in witnesses. -/
def exampleSpanAnim : Animation :=
  { exampleAnim with time_span := some (1 / 2, 2) }

/-- An example `Animation` whose target is already flagged as animating before
`begin()` is called. -/
def animatingPreAnim : Animation :=
  { exampleAnim with mobject := ⟨1, true, false⟩ }

/-- **C2 counterexample**: on a target whose animating flag is already true
before `begin()`, the flag after `begin(); finish()` is `false`, not the
pre-`begin()` value — so the state is not reverted to what it was before
`begin()`. -/
theorem begin_finish_no_revert_cex :
    animatingPreAnim.mobject.is_animating = true ∧
    animatingPreAnim.begin.finish.mobject.is_animating ≠
      animatingPreAnim.mobject.is_animating := by
  constructor
  · rfl
  · intro h
    simp [animatingPreAnim, exampleAnim, Animation.begin, Animation.finish,
      Mobject.set_animating_status, Mobject.suspend_updating,
      Mobject.resume_updating] at h

/-- **C2 (amended)**: after `begin()` the target's animating flag is true and,
if `suspend_mobject_updating` is set, its updating is suspended; after the
subsequent `finish()` the animating flag is false and updating is not
suspended — which coincides with the pre-`begin()` state provided the target
was not already animating or suspended before `begin()` was called. -/
theorem begin_finish_lifecycle (a : Animation)
    (h1 : a.mobject.is_animating = false)
    (h2 : a.mobject.updating_suspended = false) :
    a.begin.mobject.is_animating = true ∧
    (a.suspend_mobject_updating = true →
      a.begin.mobject.updating_suspended = true) ∧
    a.begin.finish.mobject.is_animating = a.mobject.is_animating ∧
    a.begin.finish.mobject.updating_suspended = a.mobject.updating_suspended := by
  have hb := begin_mobject a
  have hf := finish_mobject a.begin
  rw [begin_suspend] at hf
  refine ⟨?_, ?_, ?_, ?_⟩
  · rw [hb]
    split_ifs <;> rfl
  · intro hs
    rw [hb, if_pos hs]
    rfl
  · rw [hf, h1]
    split_ifs <;> rfl
  · rw [hf, hb]
    split_ifs <;>
      simp [Mobject.set_animating_status, Mobject.suspend_updating,
        Mobject.resume_updating, h2]

/-- Witness for the amended C2 on a fresh target. -/
theorem begin_finish_lifecycle_witness :
    exampleAnim.begin.mobject.is_animating = true ∧
    exampleAnim.begin.mobject.updating_suspended = true ∧
    exampleAnim.begin.finish.mobject.is_animating =
      exampleAnim.mobject.is_animating ∧
    exampleAnim.begin.finish.mobject.updating_suspended =
      exampleAnim.mobject.updating_suspended :=
  ⟨(begin_finish_lifecycle exampleAnim rfl rfl).1,
   (begin_finish_lifecycle exampleAnim rfl rfl).2.1 rfl,
   (begin_finish_lifecycle exampleAnim rfl rfl).2.2.1,
   (begin_finish_lifecycle exampleAnim rfl rfl).2.2.2⟩

/-- **C3**: when `time_span = (start, end)` is set, `begin()` silently widens
`run_time` to `max(end, run_time)` and replaces `rate_func` by the squish of
the original rate function onto
`[start / run_time', end / run_time']` for the widened `run_time'`, i.e.
pointwise `t ↦ rateFunc(clip((t - s') / (e' - s'), 0, 1))`. -/
theorem begin_time_span_squish (a : Animation) (s e : ℚ)
    (h : a.time_span = some (s, e)) :
    a.begin.run_time = max e a.run_time ∧
    a.begin.rate_func =
      squish_rate_func a.rate_func (s / a.begin.run_time) (e / a.begin.run_time) ∧
    ∀ t : ℚ, a.begin.rate_func t =
      a.rate_func (clip ((t - s / a.begin.run_time) /
        (e / a.begin.run_time - s / a.begin.run_time)) 0 1) := by
  have hrt := begin_run_time a s e h
  have hrf := begin_rate_func a s e h
  rw [hrt, hrf]
  exact ⟨rfl, rfl, fun t => rfl⟩

/-- Witness for C3 on the example animation with `time_span = (1/2, 2)` and
`run_time = 1`. -/
theorem begin_time_span_squish_witness :
    exampleSpanAnim.begin.run_time = max 2 exampleSpanAnim.run_time ∧
    exampleSpanAnim.begin.rate_func =
      squish_rate_func exampleSpanAnim.rate_func
        (1 / 2 / exampleSpanAnim.begin.run_time)
        (2 / exampleSpanAnim.begin.run_time) ∧
    exampleSpanAnim.begin.rate_func 1 =
      exampleSpanAnim.rate_func (clip ((1 - 1 / 2 / exampleSpanAnim.begin.run_time) /
        (2 / exampleSpanAnim.begin.run_time -
          1 / 2 / exampleSpanAnim.begin.run_time)) 0 1) :=
  ⟨(begin_time_span_squish exampleSpanAnim (1 / 2) 2 rfl).1,
   (begin_time_span_squish exampleSpanAnim (1 / 2) 2 rfl).2.1,
   (begin_time_span_squish exampleSpanAnim (1 / 2) 2 rfl).2.2 1⟩

/-- **C8**: `get_run_time()` is `max(run_time, time_span.end)` when a time span
is set and `run_time` otherwise; there is a state (before `begin()`) where the
getter differs from the stored `run_time`, and immediately after `begin()` on
an animation with a time span the getter equals the stored (widened)
`run_time`. -/
theorem get_run_time_spec (a : Animation) (s e : ℚ)
    (h : a.time_span = some (s, e)) :
    a.get_run_time = max a.run_time e ∧
    (∀ b : Animation, b.time_span = none → b.get_run_time = b.run_time) ∧
    (∃ b : Animation, b.get_run_time ≠ b.run_time) ∧
    a.begin.get_run_time = a.begin.run_time := by
  refine ⟨?_, ?_, ?_, ?_⟩
  · rw [Animation.get_run_time, h]
  · intro b hb
    rw [Animation.get_run_time, hb]
  · refine ⟨{ exampleAnim with time_span := some (0, 2) }, ?_⟩
    rw [Animation.get_run_time]
    norm_num [exampleAnim]
  · rw [Animation.get_run_time, begin_time_span, h]
    dsimp only
    rw [begin_run_time a s e h]
    exact max_eq_left (le_max_left e a.run_time)

/-- Witness for C8 on the example animation with `time_span = (1/2, 2)`. -/
theorem get_run_time_spec_witness :
    exampleSpanAnim.get_run_time = max exampleSpanAnim.run_time 2 ∧
    exampleAnim.get_run_time = exampleAnim.run_time ∧
    exampleSpanAnim.begin.get_run_time = exampleSpanAnim.begin.run_time :=
  ⟨(get_run_time_spec exampleSpanAnim (1 / 2) 2 rfl).1,
   (get_run_time_spec exampleSpanAnim (1 / 2) 2 rfl).2.1 exampleAnim rfl,
   (get_run_time_spec exampleSpanAnim (1 / 2) 2 rfl).2.2.2⟩

/-- **C4**: `prepare_animation` returns a concrete `Animation` argument
unchanged, returns `build()` of a deferred builder argument, and for any other
value fails with a type-mismatch error whose message names the offending
value. -/
theorem prepare_animation_spec :
    (∀ a : Animation, prepare_animation (.anim a) = .ok a) ∧
    (∀ b : AnimationBuilder, prepare_animation (.builder b) = .ok b.build) ∧
    (∀ n : ℤ, ∃ msg : String, prepare_animation (.other n) = .error msg ∧
      (toString n).data <:+: msg.data) := by
  refine ⟨fun a => rfl, fun b => rfl, fun n => ?_⟩
  refine ⟨"Object " ++ toString n ++ " cannot be converted to an animation", rfl, ?_⟩
  refine ⟨"Object ".data, " cannot be converted to an animation".data, ?_⟩
  simp [String.data_append]

/-- **C6**: for fixed index, total, and `lag_ratio ∈ [0, 1]`, the raw
(pre-rate-function) sub-alpha computed inside `get_sub_alpha` is a
non-decreasing function of `alpha`. -/
theorem raw_sub_alpha_mono (lag_ratio : ℚ) (h0 : 0 ≤ lag_ratio)
    (h1 : lag_ratio ≤ 1) (i n : ℕ) (alpha beta : ℚ) (hab : alpha ≤ beta) :
    raw_sub_alpha lag_ratio alpha i n ≤ raw_sub_alpha lag_ratio beta i n := by
  rw [raw_sub_alpha_eq, raw_sub_alpha_eq]
  have hF : 0 ≤ ((n : ℚ) - 1) * lag_ratio + 1 := by
    cases n with
    | zero => push_cast; linarith
    | succ m =>
      have hm : (0 : ℚ) ≤ (m : ℚ) := Nat.cast_nonneg m
      push_cast
      nlinarith
  exact clip_mono (by nlinarith) 0 1

/-- Witness for C6 at `lag_ratio = 1/2`, `i = 1`, `n = 3`,
`alpha = 1/4 ≤ beta = 3/4`. -/
theorem raw_sub_alpha_mono_witness :
    raw_sub_alpha (1 / 2) (1 / 4) 1 3 ≤ raw_sub_alpha (1 / 2) (3 / 4) 1 3 :=
  raw_sub_alpha_mono (1 / 2) (by norm_num) (by norm_num) 1 3 (1 / 4) (3 / 4)
    (by norm_num)

/-- **C7**: at the endpoints of the global timeline, `get_sub_alpha(0, i, n)`
equals `rate_func(0)` for every index `i > 0` when `lag_ratio > 0`, and
`get_sub_alpha(1, i, n)` equals `rate_func(1)` for every `lag_ratio ∈ [0, 1]`
and every index `i < n`. -/
theorem get_sub_alpha_boundary (a : Animation) (i n : ℕ) :
    (0 < a.lag_ratio → 0 < i → a.get_sub_alpha 0 i n = a.rate_func 0) ∧
    (0 ≤ a.lag_ratio → a.lag_ratio ≤ 1 → i < n →
      a.get_sub_alpha 1 i n = a.rate_func 1) := by
  constructor
  · intro hl hi
    rw [Animation.get_sub_alpha, raw_sub_alpha_eq]
    have hi1 : (1 : ℚ) ≤ (i : ℚ) := by exact_mod_cast hi
    have harg : 0 * (((n : ℚ) - 1) * a.lag_ratio + 1) - (i : ℚ) * a.lag_ratio ≤ 0 := by
      nlinarith
    rw [clip_of_le_zero harg]
  · intro hl0 hl1 hin
    rw [Animation.get_sub_alpha, raw_sub_alpha_eq]
    have hin1 : (i : ℚ) + 1 ≤ (n : ℚ) := by exact_mod_cast hin
    have hco : 0 ≤ ((n : ℚ) - 1 - (i : ℚ)) * a.lag_ratio :=
      mul_nonneg (by linarith) hl0
    have harg : 1 ≤ 1 * (((n : ℚ) - 1) * a.lag_ratio + 1) - (i : ℚ) * a.lag_ratio := by
      nlinarith
    rw [clip_of_one_le harg]

/-- Witness for C7 at index `1` of `3` nodes on the example animation
(`lag_ratio = 1/2`). -/
theorem get_sub_alpha_boundary_witness :
    exampleAnim.get_sub_alpha 0 1 3 = exampleAnim.rate_func 0 ∧
    exampleAnim.get_sub_alpha 1 1 3 = exampleAnim.rate_func 1 :=
  ⟨(get_sub_alpha_boundary exampleAnim 1 3).1 (by norm_num [exampleAnim])
      (by norm_num),
   (get_sub_alpha_boundary exampleAnim 1 3).2 (by norm_num [exampleAnim])
      (by norm_num [exampleAnim]) (by norm_num)⟩

/-- **C9**: `clean_up_from_scene(scene)` removes the target from the scene iff
`is_remover()` holds (otherwise the scene is unchanged), and a second call is
a no-op; the function is total, so calling it on a never-played animation is
safe. -/
theorem clean_up_from_scene_spec (a : Animation) (s : Scene) :
    (a.is_remover = true → a.mobject ∉ (a.clean_up_from_scene s).mobjects) ∧
    (a.is_remover = false → a.clean_up_from_scene s = s) ∧
    a.clean_up_from_scene (a.clean_up_from_scene s) = a.clean_up_from_scene s := by
  refine ⟨?_, ?_, ?_⟩
  · intro h hmem
    rw [Animation.clean_up_from_scene, if_pos h, Scene.remove] at hmem
    have hp := List.of_mem_filter hmem
    simp at hp
  · intro h
    rw [Animation.clean_up_from_scene, h]
    rfl
  · rw [Animation.clean_up_from_scene, Animation.clean_up_from_scene]
    split_ifs with h
    · rw [Scene.remove, Scene.remove]
      congr 1
      rw [List.filter_filter]
      simp
    · rfl

/-- Witness for C9 on a remover animation over a two-node scene. -/
theorem clean_up_from_scene_spec_witness :
    ({ exampleAnim with remover := true } : Animation).mobject ∉
      (({ exampleAnim with remover := true } : Animation).clean_up_from_scene
        ⟨[⟨0, false, false⟩, ⟨7, false, false⟩]⟩).mobjects ∧
    exampleAnim.clean_up_from_scene ⟨[⟨0, false, false⟩]⟩ = ⟨[⟨0, false, false⟩]⟩ :=
  ⟨(clean_up_from_scene_spec { exampleAnim with remover := true }
      ⟨[⟨0, false, false⟩, ⟨7, false, false⟩]⟩).1 rfl,
   (clean_up_from_scene_spec exampleAnim ⟨[⟨0, false, false⟩]⟩).2.1 rfl⟩

/-- **C10**: for every alpha (also outside `[0, 1]`), index, and total, with
`lag_ratio ≥ 0`, the argument `get_sub_alpha` passes to the rate function is
the clipped raw sub-alpha, which always lies in `[0, 1]`; so the rate function
is never evaluated outside its `[0, 1]` domain. -/
theorem rate_func_domain_safe (a : Animation) (alpha : ℚ) (i n : ℕ)
    (h : 0 ≤ a.lag_ratio) :
    a.get_sub_alpha alpha i n = a.rate_func (raw_sub_alpha a.lag_ratio alpha i n) ∧
    0 ≤ raw_sub_alpha a.lag_ratio alpha i n ∧
    raw_sub_alpha a.lag_ratio alpha i n ≤ 1 := by
  refine ⟨rfl, ?_, ?_⟩
  · rw [raw_sub_alpha_eq]
    exact clip_nonneg _
  · rw [raw_sub_alpha_eq]
    exact clip_le_one _

/-- Witness for C10 at the out-of-range `alpha = 5/4` on the example
animation. -/
theorem rate_func_domain_safe_witness :
    exampleAnim.get_sub_alpha (5 / 4) 2 3 =
      exampleAnim.rate_func (raw_sub_alpha exampleAnim.lag_ratio (5 / 4) 2 3) ∧
    0 ≤ raw_sub_alpha exampleAnim.lag_ratio (5 / 4) 2 3 ∧
    raw_sub_alpha exampleAnim.lag_ratio (5 / 4) 2 3 ≤ 1 :=
  rate_func_domain_safe exampleAnim (5 / 4) 2 3 (by norm_num [exampleAnim])

end Manim
